import Mathlib

/-!
Verification of the two AWS Lambda handlers in
`src/infrastructure/lambda-src/processor.py` and
`src/infrastructure/lambda-src/status-checker.py`.

The Python handlers are embedded shallowly: each handler becomes a pure
function from its request record plus an oracle describing the outcomes of
the external object-storage calls to a result record that also carries the
observable side effects (storage calls performed, temporary-file state).
Python string primitives used by the code (`str.replace`, `str.endswith`,
`urllib.parse.unquote`, the `:,` comma-grouping format) are modelled on
`List Char`.
-/

namespace ContentAccess

/-! ### Python string primitives -/

/-- Core of Python `str.replace` for a non-empty pattern `old`: scan left to
right; `skip > 0` means we are inside an occurrence already emitted as `rep`
and the next `skip` characters are dropped. -/
def replaceCore (old rep : List Char) : List Char → Nat → List Char
  | [], _ => []
  | _ :: rest, Nat.succ skip => replaceCore old rep rest skip
  | c :: rest, 0 =>
    if old.isPrefixOf (c :: rest) then
      rep ++ replaceCore old rep rest (old.length - 1)
    else
      c :: replaceCore old rep rest 0

/-- Python `s.replace(old, rep)`: every non-overlapping occurrence of `old`
in `s`, scanned left to right, is replaced by `rep`.  An empty pattern
inserts `rep` before every character and at the end, as in Python. -/
def pyReplace (s old rep : String) : String :=
  if old.data = [] then
    ⟨rep.data ++ (s.data.map (fun c => c :: rep.data)).flatten⟩
  else
    ⟨replaceCore old.data rep.data s.data 0⟩

/-- Python `s.endswith(suf)`. -/
def pyEndsWith (s suf : String) : Bool :=
  suf.data.isSuffixOf s.data

/-- Value of a hexadecimal digit character, if it is one. -/
def hexVal (c : Char) : Option Nat :=
  if '0' ≤ c ∧ c ≤ '9' then some (c.toNat - '0'.toNat)
  else if 'a' ≤ c ∧ c ≤ 'f' then some (c.toNat - 'a'.toNat + 10)
  else if 'A' ≤ c ∧ c ≤ 'F' then some (c.toNat - 'A'.toNat + 10)
  else none

/-- Decode one segment produced by splitting on `%`: if it starts with two
hexadecimal digits, those decode to a code point and the rest is kept;
otherwise the `%` that preceded the segment is restored verbatim. -/
def unquoteSeg (p : List Char) : List Char :=
  match p with
  | a :: b :: rest =>
    match hexVal a, hexVal b with
    | some ha, some hb => Char.ofNat (16 * ha + hb) :: rest
    | _, _ => '%' :: p
  | _ => '%' :: p

/-- Character-level model of `urllib.parse.unquote`, following Python's
split-on-`%` algorithm: the text before the first `%` is kept, and each
later segment is decoded by `unquoteSeg`.  (Multi-byte UTF-8 escape
sequences are modelled as individual code points; the handlers only rely on
single-byte escapes such as `%20`.) -/
def unquoteChars (s : List Char) : List Char :=
  match s.splitOn '%' with
  | [] => []
  | first :: parts => first ++ (parts.map unquoteSeg).flatten

/-- Python `urllib.parse.unquote` on strings. -/
def unquote (s : String) : String :=
  ⟨unquoteChars s.data⟩

/-- Whether `old` occurs as a contiguous substring of the argument. -/
def hasSubstr (old : List Char) : List Char → Bool
  | [] => old.isEmpty
  | c :: rest => old.isPrefixOf (c :: rest) || hasSubstr old rest

/-! ### Status handler (`status-checker.py`) -/

/-- Invocation payload of the status handler: the `event` dict.  A field is
`none` when the corresponding key is absent from the request. -/
structure StatusEvent where
  jobId : Option String
  outputS3Bucket : Option String
  outputS3Pre : Option String
deriving DecidableEq

/-- Observable outcome of one status-handler invocation: the success dict,
the failure dict built in the `except` block, or an exception propagating
out of the handler (a crash). -/
inductive StatusOutcome where
  | ok (jobId status outputLocation : String) (filesFound : List String)
  | failed (jobId status error outputLocation : String)
  | crash (pythonError : String)
deriving DecidableEq

/-- Whether the outcome is a propagated exception rather than a returned
JSON dict. -/
def StatusOutcome.isCrash : StatusOutcome → Bool
  | .crash _ => true
  | _ => false

/-- Lines 28-43 of `status-checker.py`: from the optional `Contents` list of
the listing response (absent when the prefix holds no objects), compute the
status string and `files_found`. -/
def statusClassify (jobOutputPre : String) (contents : Option (List String)) :
    String × List String :=
  match contents with
  | some objs =>
    let files_found := objs.map (fun k => pyReplace k jobOutputPre "")
    let html_files := files_found.filter (fun f => pyEndsWith f ".html")
    if html_files ≠ [] then ("COMPLETED", files_found)
    else ("IN_PROGRESS", files_found)
  | none => ("IN_PROGRESS", [])

/-- The status handler.  `listResult` is the outcome of the single
`list_objects_v2` call: `.error` when the storage layer raises, otherwise
the optional `Contents` key list.  When `outputS3Bucket` is missing the
`KeyError` is caught, but the `except` block itself reads the unbound
locals `output_bucket` / `output_prefix`, so an `UnboundLocalError`
propagates: the handler crashes. -/
def statusHandler (event : StatusEvent)
    (listResult : Except String (Option (List String))) : StatusOutcome :=
  let job_id := event.jobId.getD "unknown"
  match event.outputS3Bucket with
  | none => .crash "UnboundLocalError: output_bucket"
  | some output_bucket =>
    let outPre := event.outputS3Pre.getD "converted/"
    let job_output_pre := outPre ++ job_id ++ "/"
    match listResult with
    | .error e =>
      .failed job_id "FAILED" e ("s3://" ++ output_bucket ++ "/" ++ outPre ++ job_id ++ "/")
    | .ok contents =>
      let sc := statusClassify job_output_pre contents
      .ok job_id sc.1 ("s3://" ++ output_bucket ++ "/" ++ job_output_pre) sc.2

/-- The `list_objects_v2` view of an object store (a list of bucket/key
pairs): keys in the bucket beginning with the prefix; the `Contents` key is
absent (`none`) when no object matches. -/
def listObjectsV2 (store : List (String × String)) (bucket pre : String) :
    Option (List String) :=
  let keys := (store.filter (fun o => o.1 == bucket && pre.isPrefixOf o.2)).map Prod.snd
  if keys.isEmpty then none else some keys

/-- The status handler run against an explicit object store, returning the
store it leaves behind.  The handler only lists; it never writes. -/
def statusHandlerS (event : StatusEvent) (store : List (String × String)) :
    StatusOutcome × List (String × String) :=
  let job_id := event.jobId.getD "unknown"
  match event.outputS3Bucket with
  | none => (.crash "UnboundLocalError: output_bucket", store)
  | some output_bucket =>
    let outPre := event.outputS3Pre.getD "converted/"
    let job_output_pre := outPre ++ job_id ++ "/"
    let sc := statusClassify job_output_pre (listObjectsV2 store output_bucket job_output_pre)
    (.ok job_id sc.1 ("s3://" ++ output_bucket ++ "/" ++ job_output_pre) sc.2, store)

/-! ### Conversion handler (`processor.py`) -/

/-- Python's `:,` format specifier for a natural number: decimal digits in
groups of three separated by commas.  The argument list is the reversed
digit string; `i` counts digits already emitted. -/
def commaRevAux : List Char → Nat → List Char
  | [], _ => []
  | c :: rest, i =>
    if (i + 1) % 3 = 0 ∧ rest ≠ [] then c :: ',' :: commaRevAux rest (i + 1)
    else c :: commaRevAux rest (i + 1)

/-- Python `f"{n:,}"` for a natural number. -/
def pyCommaFormat (n : Nat) : String :=
  ⟨(commaRevAux (toString n).data.reverse 0).reverse⟩

/-- Invocation payload of the conversion handler.  A field is `none` when
the corresponding key is absent from the request.  `conversionOptionsJson`
carries the `json.dumps(..., indent=2)` rendering of the (untyped)
`conversionOptions` mapping, the only use the handler makes of it; an
absent mapping defaults to `{}`, rendered `"\x7b\x7d"`. -/
structure ProcEvent where
  jobId : Option String
  inputS3Bucket : Option String
  inputS3Key : Option String
  outputS3Bucket : Option String
  outputS3Pre : Option String
  conversionOptionsJson : Option String
deriving DecidableEq

/-- Oracle for the external effects of one invocation: the outcome of the
`download_file` call (error or downloaded byte size), of the `put_object`
call, and whether the final `os.unlink` succeeds. -/
structure ProcEnv where
  downloadResult : Except String Nat
  putResult : Except String Unit
  unlinkOk : Bool

/-- One successful `put_object` call: its bucket, key, body, content type
and metadata. -/
structure PutCall where
  bucket : String
  key : String
  body : String
  contentType : String
  metadata : List (String × String)
deriving DecidableEq

/-- The `conversion_result` dict of the success response.
`processing_time_seconds` is the constant `1.0` in the code, modelled as
the constant `1`. -/
structure ConversionResult where
  html_path : String
  output_files : List String
  pdf_pages : Nat
  images_extracted : Nat
  processing_time_seconds : Nat
deriving DecidableEq

/-- The JSON response of the conversion handler: the success dict or the
failure dict built in the `except` block. -/
inductive ProcResponse where
  | completed (jobId status outputLocation : String)
      (conversionResult : ConversionResult) (inputLocation : String)
  | failed (jobId status error inputLocation : String)
deriving DecidableEq

/-- The `inputLocation` field of either response shape. -/
def ProcResponse.inputLoc : ProcResponse → String
  | .completed _ _ _ _ l => l
  | .failed _ _ _ l => l

/-- Whether the response is the success dict. -/
def ProcResponse.isCompleted : ProcResponse → Bool
  | .completed _ _ _ _ _ => true
  | .failed _ _ _ _ => false

/-- Result of one conversion-handler invocation: the returned response plus
the observable side effects — the `download_file` calls issued (bucket,
key), the successful `put_object` writes, and whether the local temporary
file still exists when the handler returns. -/
structure ProcResult where
  response : ProcResponse
  downloads : List (String × String)
  puts : List PutCall
  tempFileExists : Bool
deriving DecidableEq

/-- The `create_html_content` template of `processor.py`, verbatim. -/
def createHtmlContent (job_id input_key input_bucket : String) (pdf_size : Nat)
    (conversion_options_json request_id : String) : String :=
  "<!DOCTYPE html>
<html lang=\"en\">
<head>
    <meta charset=\"UTF-8\">
    <meta name=\"viewport\" content=\"width=device-width, initial-scale=1.0\">
    <title>Converted PDF Document</title>
    <style>
        body \x7b font-family: Arial, sans-serif; max-width: 800px; margin: 0 auto; padding: 20px; line-height: 1.6; \x7d
        .conversion-info \x7b background-color: #f0f8ff; border: 1px solid #0066cc; border-radius: 5px; padding: 15px; margin-bottom: 20px; \x7d
        .metadata \x7b background-color: #f9f9f9; border-left: 4px solid #ccc; padding: 10px 15px; margin: 10px 0; \x7d
    </style>
</head>
<body>
    <div class=\"conversion-info\">
        <h1>PDF to HTML Conversion Result</h1>
        <p><strong>Job ID:</strong> " ++ job_id ++ "</p>
        <p><strong>Original File:</strong> " ++ input_key ++ "</p>
        <p><strong>Request ID:</strong> " ++ request_id ++ "</p>
    </div>

    <div class=\"metadata\">
        <h2>Document Metadata</h2>
        <ul>
            <li><strong>Source:</strong> s3://" ++ input_bucket ++ "/" ++ input_key ++ "</li>
            <li><strong>File Size:</strong> " ++ pyCommaFormat pdf_size ++ " bytes</li>
            <li><strong>Processing Options:</strong> " ++ conversion_options_json ++ "</li>
        </ul>
    </div>

    <div class=\"content\">
        <h2>Document Content</h2>
        <p><em>This is a Step Function workflow demonstration. The actual implementation would integrate with the content accessibility utility\x27s PDF to HTML conversion capabilities.</em></p>

        <p>In a full implementation, this would:</p>
        <ul>
            <li>Use AWS Bedrock Data Automation (BDA) for PDF parsing</li>
            <li>Extract text, images, and structure from the PDF</li>
            <li>Generate accessible HTML with proper semantic markup</li>
            <li>Include extracted images with appropriate alt text</li>
            <li>Preserve document layout and formatting</li>
        </ul>
    </div>
</body>
</html>"

/-- The failure dict built in the `except` block of `processor.py`:
`inputLocation` is rebuilt from the raw request with `event.get(..., '')`,
so absent fields become empty strings and the key is NOT percent-decoded. -/
def procFailResponse (event : ProcEvent) (job_id error_message : String) : ProcResponse :=
  .failed job_id "FAILED" error_message
    ("s3://" ++ event.inputS3Bucket.getD "" ++ "/" ++ event.inputS3Key.getD "")

/-- The conversion handler.  `requestId` is `context.aws_request_id`.
Missing required fields raise `KeyError` (message `'<field>'`), caught by
the handler boundary; the temporary file is created with `delete=False`
just before the download and unlinked (failures swallowed) only on the
success path. -/
def processorHandler (event : ProcEvent) (requestId : String) (env : ProcEnv) :
    ProcResult :=
  let job_id := event.jobId.getD ("job-" ++ requestId)
  match event.inputS3Bucket with
  | none => ⟨procFailResponse event job_id "\x27inputS3Bucket\x27", [], [], false⟩
  | some input_bucket =>
    match event.inputS3Key with
    | none => ⟨procFailResponse event job_id "\x27inputS3Key\x27", [], [], false⟩
    | some rawKey =>
      let input_key := unquote rawKey
      match event.outputS3Bucket with
      | none => ⟨procFailResponse event job_id "\x27outputS3Bucket\x27", [], [], false⟩
      | some output_bucket =>
        let outPre := event.outputS3Pre.getD "converted/"
        let conversion_options := event.conversionOptionsJson.getD "\x7b\x7d"
        match env.downloadResult with
        | .error e =>
          ⟨procFailResponse event job_id ("Failed to download PDF: " ++ e),
           [(input_bucket, input_key)], [], true⟩
        | .ok pdf_size =>
          let html_content :=
            createHtmlContent job_id input_key input_bucket pdf_size conversion_options requestId
          let output_key := outPre ++ job_id ++ "/converted.html"
          match env.putResult with
          | .error e =>
            ⟨procFailResponse event job_id e, [(input_bucket, input_key)], [], true⟩
          | .ok _ =>
            ⟨.completed job_id "COMPLETED"
               ("s3://" ++ output_bucket ++ "/" ++ outPre ++ job_id ++ "/")
               ⟨"s3://" ++ output_bucket ++ "/" ++ output_key, [output_key], 1, 0, 1⟩
               ("s3://" ++ input_bucket ++ "/" ++ input_key),
             [(input_bucket, input_key)],
             [⟨output_bucket, output_key, html_content, "text/html",
               [("job-id", job_id), ("source-bucket", input_bucket),
                ("source-key", input_key), ("conversion-timestamp", requestId)]⟩],
             !env.unlinkOk⟩

/-! ### Lemmas about the Python string primitives -/

theorem isPrefixOf_append_self (l t : List Char) : l.isPrefixOf (l ++ t) = true :=
  List.isPrefixOf_iff_prefix.2 (List.prefix_append l t)

/-- With `skip` set to the length of `u`, `replaceCore` drops `u` and
resumes scanning at `t`. -/
theorem replaceCore_skip (old rep : List Char) :
    ∀ u t : List Char, replaceCore old rep (u ++ t) u.length = replaceCore old rep t 0
  | [], t => rfl
  | c :: u, t => by
    simpa [replaceCore] using replaceCore_skip old rep u t

/-- A string in which the pattern does not occur is left unchanged. -/
theorem replaceCore_no_occur (old rep : List Char) :
    ∀ s : List Char, hasSubstr old s = false → replaceCore old rep s 0 = s
  | [], _ => rfl
  | c :: rest, h => by
    have h' := h
    simp only [hasSubstr, Bool.or_eq_false_iff] at h'
    simp [replaceCore, h'.1, replaceCore_no_occur old rep rest h'.2]

/-- A non-empty pattern standing at the front of the string is replaced
there, and scanning resumes after it. -/
theorem replaceCore_front (old rep t : List Char) (h : old ≠ []) :
    replaceCore old rep (old ++ t) 0 = rep ++ replaceCore old rep t 0 := by
  match old, h with
  | c :: o, _ =>
    have hpre : (c :: o).isPrefixOf ((c :: o) ++ t) = true := isPrefixOf_append_self _ t
    calc replaceCore (c :: o) rep ((c :: o) ++ t) 0
        = rep ++ replaceCore (c :: o) rep (o ++ t) o.length := by
          simp [replaceCore, hpre]
      _ = rep ++ replaceCore (c :: o) rep t 0 := by
          rw [replaceCore_skip]

/-- Python `replace` of a non-empty prefix by the empty string strips that
prefix when it does not occur again in the remainder. -/
theorem pyReplace_strip (pre rest : String) (hp : pre.data ≠ [])
    (hno : hasSubstr pre.data rest.data = false) :
    pyReplace (pre ++ rest) pre "" = rest := by
  show (if pre.data = [] then _ else _) = rest
  rw [if_neg hp]
  have : replaceCore pre.data "".data (pre ++ rest).data 0 = rest.data := by
    show replaceCore pre.data "".data (pre.data ++ rest.data) 0 = rest.data
    rw [replaceCore_front _ _ _ hp, replaceCore_no_occur _ _ _ hno]
    rfl
  rw [this]

/-- Python `replace` of a whole non-empty string by the empty string yields
the empty string. -/
theorem pyReplace_self (pre : String) (hp : pre.data ≠ []) :
    pyReplace pre pre "" = "" := by
  show (if pre.data = [] then _ else _) = ""
  rw [if_neg hp]
  have : replaceCore pre.data "".data pre.data 0 = [] := by
    have h2 : replaceCore pre.data "".data (pre.data ++ []) 0 = [] := by
      rw [replaceCore_front _ _ _ hp]
      rfl
    simpa using h2
  rw [this]

/-- Appending the `/` of a job prefix always yields a non-empty string. -/
theorem data_append_slash_ne_nil (s : String) : (s ++ "/").data ≠ [] := by
  intro h
  have := congrArg List.length h
  simp at this

theorem filter_ne_nil_iff_any (l : List String) (p : String → Bool) :
    (l.filter p ≠ []) ↔ l.any p = true := by
  simp [List.filter_eq_nil_iff, List.any_eq_true]

/-- The `files_found` list computed when `Contents` is present: each listed
key with the job prefix replaced by the empty string. -/
theorem statusClassify_some_snd (pre : String) (ks : List String) :
    (statusClassify pre (some ks)).2 = ks.map (fun k => pyReplace k pre "") := by
  simp only [statusClassify]
  split <;> rfl

/-- The status computed when `Contents` is present: `COMPLETED` exactly when
some `files_found` entry ends in `.html`. -/
theorem statusClassify_some_fst (pre : String) (ks : List String) :
    (statusClassify pre (some ks)).1 =
      if (ks.map (fun k => pyReplace k pre "")).any (fun f => pyEndsWith f ".html")
      then "COMPLETED" else "IN_PROGRESS" := by
  simp only [statusClassify]
  split
  next h => rw [if_pos ((filter_ne_nil_iff_any _ _).1 h)]
  next h =>
    rw [if_neg]
    intro hany
    exact h ((filter_ne_nil_iff_any _ _).2 hany)

/-! ### Claims -/

/-- C1, counterexample: a status request lacking `outputS3Bucket` does not
produce a structured `FAILED` result; the `except` block reads the unbound
local `output_bucket`, so an exception propagates out of the handler. -/
theorem statusHandler_missing_bucket_crashes :
    statusHandler ⟨some "job1", none, none⟩ (.ok none) =
      .crash "UnboundLocalError: output_bucket" := rfl

/-- C1, amended: the status handler propagates an exception exactly when
the request lacks `outputS3Bucket`; whenever that field is present, any
listing error is caught and converted into the structured result
`{ jobId, status: "FAILED", error, outputLocation }`. -/
theorem statusHandler_boundary_amended (e : StatusEvent)
    (r : Except String (Option (List String))) :
    ((statusHandler e r).isCrash = true ↔ e.outputS3Bucket = none) ∧
    (∀ b msg, e.outputS3Bucket = some b → r = .error msg →
      statusHandler e r = .failed (e.jobId.getD "unknown") "FAILED" msg
        ("s3://" ++ b ++ "/" ++ e.outputS3Pre.getD "converted/" ++
          e.jobId.getD "unknown" ++ "/")) := by
  obtain ⟨j, ob, op⟩ := e
  cases ob <;> cases r <;>
    simp [statusHandler, StatusOutcome.isCrash]

/-- C1, witness for the amended claim at a concrete failing listing. -/
theorem statusHandler_boundary_amended_witness :
    statusHandler ⟨some "j", some "bkt", none⟩ (.error "boom") =
      .failed "j" "FAILED" "boom" "s3://bkt/converted/j/" :=
  (statusHandler_boundary_amended ⟨some "j", some "bkt", none⟩ (.error "boom")).2
    "bkt" "boom" rfl rfl

/-- C2, counterexample: on a handled download failure the temporary file
still exists when the conversion handler returns, contradicting removal on
every exit path. -/
theorem processor_temp_survives_download_failure :
    (processorHandler ⟨some "j", some "in", some "k.pdf", some "out", none, none⟩ "r1"
      ⟨.error "timeout", .ok (), true⟩).tempFileExists = true := rfl

/-- C2, amended: the temporary file is gone at return exactly when either
it was never created (a required field was missing, so no download was
attempted) or the handler succeeded and the `os.unlink` on the success path
worked; on download-failure and upload-failure exits, and when the
swallowed removal itself fails, the file persists. -/
theorem processor_temp_cleanup_amended (e : ProcEvent) (rid : String) (env : ProcEnv) :
    (processorHandler e rid env).tempFileExists = false ↔
      ((processorHandler e rid env).downloads = [] ∨
       ((processorHandler e rid env).response.isCompleted = true ∧ env.unlinkOk = true)) := by
  obtain ⟨j, ib, ik, ob, op, co⟩ := e
  obtain ⟨dl, pr, ul⟩ := env
  cases ib <;> cases ik <;> cases ob <;> cases dl <;> cases pr <;> cases ul <;>
    simp [processorHandler, procFailResponse, ProcResponse.isCompleted]

/-- C3: for every successful listing, the status is `COMPLETED` exactly
when some relative name ends in `.html` (hence `IN_PROGRESS` both for zero
objects and for objects without any `.html`), and `filesFound` is empty
exactly when zero objects were listed. -/
theorem statusClassify_three_way (pre : String) (contents : Option (List String)) :
    (statusClassify pre contents).1 =
      (if ((statusClassify pre contents).2).any (fun f => pyEndsWith f ".html")
       then "COMPLETED" else "IN_PROGRESS") ∧
    ((statusClassify pre contents).2 = [] ↔ contents.getD [] = []) := by
  cases contents with
  | none => simp [statusClassify]
  | some ks =>
    rw [statusClassify_some_fst, statusClassify_some_snd]
    exact ⟨rfl, by simp⟩

/-- C4: a valid conversion request whose download and upload succeed writes
exactly one object, at `<outputS3Prefix><jobId>/converted.html` in the
output bucket, with content type `text/html` and metadata carrying job id,
source bucket, decoded source key and the request id, and returns
`COMPLETED` with `outputLocation` `s3://<bucket>/<prefix><jobId>/`. -/
theorem processor_success_single_write (jid bkt key obkt opre opts rid : String)
    (size : Nat) (unl : Bool) :
    (processorHandler ⟨some jid, some bkt, some key, some obkt, some opre, some opts⟩ rid
        ⟨.ok size, .ok (), unl⟩).puts =
      [⟨obkt, opre ++ jid ++ "/converted.html",
        createHtmlContent jid (unquote key) bkt size opts rid, "text/html",
        [("job-id", jid), ("source-bucket", bkt), ("source-key", unquote key),
         ("conversion-timestamp", rid)]⟩] ∧
    (processorHandler ⟨some jid, some bkt, some key, some obkt, some opre, some opts⟩ rid
        ⟨.ok size, .ok (), unl⟩).response =
      .completed jid "COMPLETED" ("s3://" ++ obkt ++ "/" ++ opre ++ jid ++ "/")
        ⟨"s3://" ++ obkt ++ "/" ++ (opre ++ jid ++ "/converted.html"),
         [opre ++ jid ++ "/converted.html"], 1, 0, 1⟩
        ("s3://" ++ bkt ++ "/" ++ unquote key) := ⟨rfl, rfl⟩

/-- C5: a conversion request missing `inputS3Bucket` yields `FAILED` with
the non-empty `KeyError` message and an `inputLocation` rebuilt with empty
strings for the absent fields; no further storage call or temporary file is
made and no secondary fault occurs. -/
theorem processor_missing_input_bucket_failed (e : ProcEvent) (rid : String)
    (env : ProcEnv) (h : e.inputS3Bucket = none) :
    processorHandler e rid env =
      ⟨.failed (e.jobId.getD ("job-" ++ rid)) "FAILED" "\x27inputS3Bucket\x27"
         ("s3://" ++ "" ++ "/" ++ e.inputS3Key.getD ""), [], [], false⟩ ∧
    "\x27inputS3Bucket\x27" ≠ "" := by
  refine ⟨?_, by decide⟩
  obtain ⟨j, ib, ik, ob, op, co⟩ := e
  cases h
  simp [processorHandler, procFailResponse]

/-- C5, witness at a concrete request without `inputS3Bucket`. -/
theorem processor_missing_input_bucket_failed_witness :
    processorHandler ⟨none, none, some "a.pdf", some "o", none, none⟩ "r1"
        ⟨.ok 0, .ok (), true⟩ =
      ⟨.failed "job-r1" "FAILED" "\x27inputS3Bucket\x27" "s3:///a.pdf", [], [], false⟩ ∧
    "\x27inputS3Bucket\x27" ≠ "" :=
  processor_missing_input_bucket_failed ⟨none, none, some "a.pdf", some "o", none, none⟩
    "r1" ⟨.ok 0, .ok (), true⟩ rfl

/-- C6, counterexample: a key whose remainder contains the job prefix again
is stripped everywhere, not only at the front — the entry for
`converted/job1/converted/job1/a.html` under prefix `converted/job1/` is
`a.html`, not the front-stripped `converted/job1/a.html`. -/
theorem statusClassify_strip_all_occurrences_cex :
    (statusClassify "converted/job1/" (some ["converted/job1/converted/job1/a.html"])).2 =
      ["a.html"] ∧
    ["a.html"] ≠ ["converted/job1/a.html"] := by
  decide

/-- C6, amended: each `filesFound` entry is the key with every
non-overlapping occurrence of the job prefix removed (Python `str.replace`
semantics); this coincides with removing a single leading prefix whenever
the prefix does not occur again in the remainder. -/
theorem statusClassify_strip_amended (pre rest : String) (ks : List String)
    (hp : pre.data ≠ []) (hno : hasSubstr pre.data rest.data = false) :
    (statusClassify pre (some ks)).2 = ks.map (fun k => pyReplace k pre "") ∧
    pyReplace (pre ++ rest) pre "" = rest :=
  ⟨statusClassify_some_snd pre ks, pyReplace_strip pre rest hp hno⟩

/-- C6, witness for the amended claim at a concrete listing. -/
theorem statusClassify_strip_amended_witness :
    (statusClassify "converted/job1/" (some ["converted/job1/a.html", "converted/job1/"])).2 =
      ["converted/job1/a.html", "converted/job1/"].map
        (fun k => pyReplace k "converted/job1/" "") ∧
    pyReplace ("converted/job1/" ++ "a.html") "converted/job1/" "" = "a.html" :=
  statusClassify_strip_amended "converted/job1/" "a.html"
    ["converted/job1/a.html", "converted/job1/"] (by decide) (by decide)

/-- C7: the conversion handler percent-decodes `inputS3Key` before the
storage calls use it — the download call and the `source-key` metadata of
the written object carry the decoded key, and the success response records
the decoded key in `inputLocation` (e.g. `a%20b.pdf` decodes to
`a b.pdf`). -/
theorem processor_percent_decodes_key (jid bkt rawKey obkt opre opts rid : String)
    (size : Nat) (unl : Bool) :
    (processorHandler ⟨some jid, some bkt, some rawKey, some obkt, some opre, some opts⟩ rid
        ⟨.ok size, .ok (), unl⟩).downloads = [(bkt, unquote rawKey)] ∧
    ((processorHandler ⟨some jid, some bkt, some rawKey, some obkt, some opre, some opts⟩ rid
        ⟨.ok size, .ok (), unl⟩).puts.map (fun p => p.metadata)) =
      [[("job-id", jid), ("source-bucket", bkt), ("source-key", unquote rawKey),
        ("conversion-timestamp", rid)]] ∧
    ((processorHandler ⟨some jid, some bkt, some rawKey, some obkt, some opre, some opts⟩ rid
        ⟨.ok size, .ok (), unl⟩).response.inputLoc) =
      "s3://" ++ bkt ++ "/" ++ unquote rawKey ∧
    unquote "a%20b.pdf" = "a b.pdf" :=
  ⟨rfl, rfl, rfl, by decide⟩

/-- C8: against a fixed object store the status handler leaves the store
unchanged (read-only) and a second invocation returns the identical
result. -/
theorem statusHandler_idempotent_readonly (e : StatusEvent)
    (store : List (String × String)) :
    (statusHandlerS e store).2 = store ∧
    (statusHandlerS e ((statusHandlerS e store).2)).1 = (statusHandlerS e store).1 := by
  have h2 : (statusHandlerS e store).2 = store := by
    cases hb : e.outputS3Bucket <;> simp [statusHandlerS, hb]
  exact ⟨h2, by rw [h2]⟩

/-- C9: every failure response of the conversion handler embeds the raw,
undecoded `inputS3Key` in `inputLocation`; for the percent-encoded key
`a%20b.pdf` the failure `inputLocation` therefore differs from the decoded
location the success path would record. -/
theorem processor_failure_raw_input_location (e : ProcEvent) (rid : String)
    (env : ProcEnv) :
    (∀ jid st err loc, (processorHandler e rid env).response = .failed jid st err loc →
        loc = "s3://" ++ e.inputS3Bucket.getD "" ++ "/" ++ e.inputS3Key.getD "") ∧
    (processorHandler ⟨some "j", some "b", some "a%20b.pdf", some "o", none, none⟩ "r"
        ⟨.error "x", .ok (), true⟩).response.inputLoc = "s3://b/a%20b.pdf" ∧
    ("s3://" ++ "b" ++ "/" ++ unquote "a%20b.pdf") ≠ "s3://b/a%20b.pdf" := by
  refine ⟨?_, rfl, by decide⟩
  intro jid st err loc h
  obtain ⟨j, ib, ik, ob, op, co⟩ := e
  obtain ⟨dl, pr, ul⟩ := env
  cases ib <;> cases ik <;> cases ob <;> cases dl <;> cases pr <;>
    simp_all [processorHandler, procFailResponse]

/-- C9, witness at a concrete failing request. -/
theorem processor_failure_raw_input_location_witness :
    "s3:///k" = "s3://" ++ "" ++ "/" ++ "k" :=
  (processor_failure_raw_input_location ⟨none, none, some "k", some "o", none, none⟩ "r"
      ⟨.ok 0, .ok (), true⟩).1
    "job-r" "FAILED" "\x27inputS3Bucket\x27" "s3:///k" rfl

/-- C10: a listed key exactly equal to the job prefix (a folder marker)
contributes the empty string to `filesFound`; a prefix holding only the
marker is classified `IN_PROGRESS` with the non-empty list `[""]`. -/
theorem statusClassify_folder_marker (pre jid : String) (ks : List String)
    (hmem : (pre ++ jid ++ "/") ∈ ks) :
    "" ∈ (statusClassify (pre ++ jid ++ "/") (some ks)).2 ∧
    (statusClassify (pre ++ jid ++ "/") (some [pre ++ jid ++ "/"])).1 = "IN_PROGRESS" ∧
    (statusClassify (pre ++ jid ++ "/") (some [pre ++ jid ++ "/"])).2 = [""] := by
  have hself : pyReplace (pre ++ jid ++ "/") (pre ++ jid ++ "/") "" = "" :=
    pyReplace_self _ (data_append_slash_ne_nil _)
  refine ⟨?_, ?_, ?_⟩
  · rw [statusClassify_some_snd]
    have hm : pyReplace (pre ++ jid ++ "/") (pre ++ jid ++ "/") "" ∈
        List.map (fun k => pyReplace k (pre ++ jid ++ "/") "") ks :=
      List.mem_map_of_mem _ hmem
    rwa [hself] at hm
  · have h1 := statusClassify_some_fst (pre ++ jid ++ "/") [pre ++ jid ++ "/"]
    rw [List.map_cons, List.map_nil, hself] at h1
    have hany : ([""].any (fun f => pyEndsWith f ".html")) = false := by decide
    rw [hany] at h1
    simpa using h1
  · have h2 := statusClassify_some_snd (pre ++ jid ++ "/") [pre ++ jid ++ "/"]
    rw [List.map_cons, List.map_nil, hself] at h2
    exact h2

/-- C10, witness at a concrete folder-marker listing. -/
theorem statusClassify_folder_marker_witness :
    "" ∈ (statusClassify ("converted/" ++ "job1" ++ "/") (some ["converted/job1/"])).2 ∧
    (statusClassify ("converted/" ++ "job1" ++ "/")
        (some [("converted/" ++ "job1" ++ "/")])).1 = "IN_PROGRESS" ∧
    (statusClassify ("converted/" ++ "job1" ++ "/")
        (some [("converted/" ++ "job1" ++ "/")])).2 = [""] :=
  statusClassify_folder_marker "converted/" "job1" ["converted/job1/"] (by decide)

end ContentAccess
